import Mathlib

/-!
# Verification of the redengine/rocketry condition Statement engine

Shallow embedding of `src/redengine/core/condition/statement.py` and, for the
session-construction claim, a spec-modelled fragment of the rocketry `Session`
configuration (whose source is not in the repository snapshot; only its test
`src/rocketry/test/session/test_construct.py` is).

Python dynamic values are embedded as the inductive `Value`; Python dicts as
association lists with Python `dict` semantics (insertion order for iteration,
in-place update, `|` merge with right operand winning); exceptions as an
explicit `Except` result; the logging module as a list of emitted records.
A statement created by `Statement.from_func` is the record `Stmt` carrying the
dynamic class identity (function name plus the `historical` / `quantitative` /
`use_globals` flags) and the instance attributes `args`, `kwargs`, `period`.
The user-supplied `observe` function is passed explicitly to the evaluator.
-/

/-- Embedded Python values: booleans, integers (also standing for the numeric
observations the statements compare), strings, lists (anything with `__len__`
together with strings), and datetimes (as integer timestamps). -/
inductive Value where
  | vBool (b : Bool)
  | vInt (n : Int)
  | vStr (s : String)
  | vList (xs : List Value)
  | vTime (t : Int)
deriving Repr

/-- Structural (Lean-level) equality on embedded values, used to derive
decidable equality for the nested inductive. -/
def Value.beq : Value → Value → Bool
  | Value.vBool a, Value.vBool b => a == b
  | Value.vInt a, Value.vInt b => a == b
  | Value.vStr a, Value.vStr b => a == b
  | Value.vList xs, Value.vList ys =>
    match xs, ys with
    | [], [] => true
    | x :: xs, y :: ys => Value.beq x y && Value.beq (Value.vList xs) (Value.vList ys)
    | _, _ => false
  | Value.vTime a, Value.vTime b => a == b
  | _, _ => false

theorem Value.beq_iff : ∀ a b : Value, Value.beq a b = true ↔ a = b := by
  intro a b
  induction a, b using Value.beq.induct
  all_goals try simp_all [Value.beq]
  · rename_i xs ys h1 h2
    cases xs <;> cases ys
    all_goals try simp_all [Value.beq]
    all_goals exact fun _ => ((h2 _ _ _ _ rfl rfl rfl) rfl).elim
  · rename_i v1 v2 h1 h2 h3 h4 h5
    cases v1 <;> cases v2
    all_goals try simp_all [Value.beq]
    all_goals (rename_i b1 b2; cases b1 <;> cases b2 <;> simp_all)

instance : DecidableEq Value := fun a b =>
  decidable_of_iff _ (Value.beq_iff a b)

/-- A Python dict, as an association list in insertion order. -/
abbrev Dict : Type := List (String × Value)

/-- `d[k]` lookup: first binding of the key (the embedding keeps keys unique,
as Python dicts do). -/
def Dict.lookup (d : Dict) (k : String) : Option Value :=
  match d with
  | [] => none
  | (k₀, v₀) :: rest => if k₀ = k then some v₀ else Dict.lookup rest k

/-- `k in d`. -/
def Dict.hasKey (d : Dict) (k : String) : Bool :=
  (Dict.lookup d k).isSome

/-- `d[k] = v`: replace the binding in place if the key exists (keeping its
position), else append — Python dicts keep insertion order and never hold a
key twice. -/
def Dict.set : Dict → String → Value → Dict
  | [], k, v => [(k, v)]
  | (k0, v0) :: rest, k, v =>
    if k0 = k then (k, v) :: rest else (k0, v0) :: Dict.set rest k v

/-- `d1.update(d2)`: set each binding of `d2` in `d1`, in order. -/
def Dict.update (d1 d2 : Dict) : Dict :=
  d2.foldl (fun acc p => Dict.set acc p.1 p.2) d1

/-- `d1 | d2` (PEP 584 merge): a copy of `d1` updated with `d2`, so on a key
collision the right operand wins. -/
def Dict.merge (d1 d2 : Dict) : Dict :=
  Dict.update d1 d2

/-- The keys of a dict are pairwise distinct. Python guarantees this for every
dict; the association-list embedding states it explicitly where a proof
needs it. -/
def Dict.nodupKeys (d : Dict) : Prop :=
  (d.map Prod.fst).Nodup

instance (d : Dict) : Decidable (Dict.nodupKeys d) := by
  unfold Dict.nodupKeys; infer_instance

/-- Embedded Python exceptions, split exactly as `Statement.__bool__` does:
the two classes it re-raises unconditionally, and every other exception. -/
inductive PyExc where
  | keyboardInterrupt
  | importError
  | otherError (msg : String)
deriving DecidableEq, Repr

/-- Levels of the `logging` module that the statement engine emits at.
`logger.exception` logs at `ERROR` level. -/
inductive LogLevel where
  | error
deriving DecidableEq, Repr

/-- One emitted log record. -/
structure LogRecord where
  level : LogLevel
  msg : String
deriving DecidableEq, Repr

/-- A `TimePeriod` (class `redengine.core.time.base.TimePeriod`, outside the
snapshot): an opaque token; its `rollback` behaviour is supplied by `TimeEnv`
so theorems hold for every rollback semantics. -/
structure TimePeriod where
  id : String
deriving DecidableEq, Repr

/-- The interval a period query returns, with `left` and `right` endpoints
(timestamps). -/
structure TimeInterval where
  left : Int
  right : Int
deriving DecidableEq, Repr

/-- Semantics of the out-of-snapshot time code: `rollback p t` is
`p.rollback(datetime.fromtimestamp(t))`. -/
structure TimeEnv where
  rollback : TimePeriod → Int → TimeInterval

/-- The session config options the statement engine reads
(`self.session.config["debug"]`). -/
structure Config where
  debug : Bool
deriving DecidableEq, Repr

/-- The session state the statement engine reads: `session.parameters` and
`session.config`. -/
structure Session where
  parameters : Dict
  config : Config

/-- A statement instance as built by `Statement.from_func(...)(*args, **kwargs)`:
`className` is the generated class's name (the observe function's `__name__`),
`historical` / `comparable` record which mixin bases the class received,
`useGlobals` is the class attribute `_use_global_params`, and `args`, `kwargs`,
`period` are the instance attributes (`period` is only present on `Historical`
instances; it is `none` elsewhere). -/
structure Stmt where
  className : String
  historical : Bool
  comparable : Bool
  useGlobals : Bool
  args : List Value
  kwargs : Dict
  period : Option TimePeriod

/-- Two statement instances have the same dynamic class
(`isinstance(other, type(self))` between two leaf classes generated by
`from_func`): same generated name and same mixin/flag configuration. -/
def Stmt.sameClass (a b : Stmt) : Bool :=
  a.className = b.className && a.historical = b.historical
    && a.comparable = b.comparable && a.useGlobals = b.useGlobals

/-- `Statement.get_kwargs`: the statement's kwargs, with `session.parameters`
merged underneath when `_use_global_params` is set (the local kwargs win on
collision, since the right operand of `|` wins). -/
def Stmt.baseKwargs (sess : Session) (s : Stmt) : Dict :=
  if s.useGlobals then Dict.merge sess.parameters s.kwargs else s.kwargs

/-- `get_kwargs` as resolved on the generated class: `Historical.get_kwargs`
wraps the base when the class is historical, adding `_start_` and `_end_`
from `period.rollback(now)` when a period is present
(`Comparable.get_kwargs` is a pass-through). -/
def Stmt.getKwargs (tenv : TimeEnv) (now : Int) (sess : Session) (s : Stmt) : Dict :=
  let base := Stmt.baseKwargs sess s
  if s.historical then
    match s.period with
    | none => base
    | some p =>
      Dict.set (Dict.set base "_start_" (Value.vTime (tenv.rollback p now).left))
        "_end_" (Value.vTime (tenv.rollback p now).right)
  else
    base

/-- Python truthiness `bool(res)` for the embedded values (`datetime` objects
are always truthy). -/
def pyTruth : Value → Bool
  | Value.vBool b => b
  | Value.vInt n => n ≠ 0
  | Value.vStr s => s ≠ ""
  | Value.vList xs => !xs.isEmpty
  | Value.vTime _ => true

/-- Python `==` on embedded values. `bool` is an `int` subclass in Python, so
`True == 1`; values of unrelated types compare unequal; lists compare
elementwise (equal length required). -/
def pyEq : Value → Value → Bool
  | Value.vBool a, Value.vBool b => a == b
  | Value.vBool a, Value.vInt n => (if a then (1 : Int) else 0) == n
  | Value.vInt n, Value.vBool a => n == (if a then (1 : Int) else 0)
  | Value.vInt a, Value.vInt b => a == b
  | Value.vStr a, Value.vStr b => a == b
  | Value.vList xs, Value.vList ys =>
    match xs, ys with
    | [], [] => true
    | x :: xs, y :: ys => pyEq x y && pyEq (Value.vList xs) (Value.vList ys)
    | _, _ => false
  | Value.vTime a, Value.vTime b => a == b
  | _, _ => false

/-- Python `==` on argument tuples: equal length and elementwise `pyEq`. -/
def pyEqList : List Value → List Value → Bool
  | [], [] => true
  | x :: xs, y :: ys => pyEq x y && pyEqList xs ys
  | _, _ => false

/-- One inclusion of Python dict equality: every binding of `d1` is matched in
`d2` under `pyEq`. -/
def Dict.pyLe (d1 d2 : Dict) : Bool :=
  d1.all fun p =>
    match Dict.lookup d2 p.1 with
    | some v => pyEq p.2 v
    | none => false

/-- Python `==` on dicts: same keys and `pyEq`-equal values, insertion order
irrelevant. -/
def Dict.pyEq (d1 d2 : Dict) : Bool :=
  Dict.pyLe d1 d2 && Dict.pyLe d2 d1

/-- The relational-operator kwarg keys `Comparable._to_bool` scans, in the
order of its tuple literal. -/
def compKeys : List String := ["_eq_", "_ne_", "_lt_", "_gt_", "_le_", "_ge_"]

/-- `f"_{comp}_"`: the magic-method name built from an operator kwarg key
(`"_eq_"` becomes `"__eq__"`). -/
def magicName (c : String) : String := "_" ++ c ++ "_"

/-- `hasattr(res, "__len__")` for the embedded values. -/
def Value.hasLen : Value → Bool
  | Value.vList _ => true
  | Value.vStr _ => true
  | _ => false

/-- `len(res)` for the embedded values that have `__len__`. -/
def Value.lenOf : Value → Int
  | Value.vList xs => xs.length
  | Value.vStr s => s.length
  | _ => 0

/-- `res = len(res) if hasattr(res, "__len__") else res`: the scalar the
comparisons are applied to. -/
def comparableScalar (res : Value) : Value :=
  if res.hasLen then Value.vInt res.lenOf else res

/-- A value as the Python integer a relational magic method accepts: ints
themselves, and bools as their int value. Other operand types make the
magic method return `NotImplemented`. -/
def toIntScalar : Value → Option Int
  | Value.vBool b => some (if b then 1 else 0)
  | Value.vInt n => some n
  | _ => none

/-- `getattr(res, comp)(val)` for a relational magic method on an int scalar.
When either side is not an int the method returns `NotImplemented`, which is
truthy under `all(...)` on the CPython versions this code targets, hence
`true`. -/
def pyCompMagic (magic : String) (a b : Value) : Bool :=
  match toIntScalar a, toIntScalar b with
  | some x, some y =>
    if magic = "__eq__" then x == y
    else if magic = "__ne__" then x != y
    else if magic = "__lt__" then decide (x < y)
    else if magic = "__gt__" then decide (x > y)
    else if magic = "__le__" then decide (x ≤ y)
    else if magic = "__ge__" then decide (x ≥ y)
    else false
  | _, _ => true

/-- The `comps` dict comprehension of `Comparable._to_bool`: for each operator
key present in the statement's kwargs, the pair of its magic-method name and
the attached comparison value, in `compKeys` order. -/
def attachedComps (kw : Dict) : List (String × Value) :=
  compKeys.filterMap fun c => (Dict.lookup kw c).map fun v => (magicName c, v)

/-- `Comparable._to_bool`: a plain boolean observation is returned as is
(`super()._to_bool`); otherwise the observation is reduced to `comparableScalar`
and either checked against all attached comparisons conjunctively, or, with
none attached, `res > 0` is returned (the `>` operator raises `TypeError` on a
non-numeric scalar, modelled as an exception result). -/
def Comparable.toBool (kw : Dict) (res : Value) : Except PyExc Bool :=
  match res with
  | Value.vBool b => Except.ok b
  | _ =>
    let scalar := comparableScalar res
    let comps := attachedComps kw
    if comps.isEmpty then
      match scalar with
      | Value.vInt n => Except.ok (decide (0 < n))
      | _ => Except.error (PyExc.otherError "TypeError: not supported between instances")
    else
      Except.ok (comps.all fun p => pyCompMagic p.1 scalar p.2)

/-- `_to_bool` as resolved on the generated class: `Comparable._to_bool` when
the class has the `Comparable` mixin, else `Statement._to_bool` (`bool(res)`).
Note the comparisons read `self.kwargs`, not the merged `get_kwargs()`. -/
def Stmt.toBool (s : Stmt) (res : Value) : Except PyExc Bool :=
  if s.comparable then Comparable.toBool s.kwargs res else Except.ok (pyTruth res)

/-- The type of an embedded `observe` function: positional args and keyword
args to an observation, or a raised exception. -/
def ObserveFn : Type := List Value → Dict → Except PyExc Value

/-- `Statement.__bool__`: run `observe(*self.args, **self.get_kwargs())` and
`_to_bool` under a `try`. `KeyboardInterrupt` and `ImportError` are re-raised
untouched; any other exception is logged at error level
(`logger.exception`) and then either re-raised (when `session.config["debug"]`)
or turned into `False`. Returns the outcome paired with the emitted log
records. -/
def evalStatement (observe : ObserveFn) (tenv : TimeEnv) (now : Int)
    (sess : Session) (s : Stmt) : Except PyExc Bool × List LogRecord :=
  let attempt : Except PyExc Bool :=
    match observe s.args (Stmt.getKwargs tenv now sess s) with
    | Except.error e => Except.error e
    | Except.ok outcome => Stmt.toBool s outcome
  match attempt with
  | Except.ok status => (Except.ok status, [])
  | Except.error PyExc.keyboardInterrupt => (Except.error PyExc.keyboardInterrupt, [])
  | Except.error PyExc.importError => (Except.error PyExc.importError, [])
  | Except.error (PyExc.otherError msg) =>
    let logs := [LogRecord.mk LogLevel.error
      ("Statement is False due to an Exception: " ++ msg)]
    if sess.config.debug then (Except.error (PyExc.otherError msg), logs)
    else (Except.ok false, logs)

/-- What a Python `__eq__` call between two statements returns: either a
boolean, or (`Comparable.__eq__` against a non-`Comparable` operand) the
result of `_set_comparison("_eq_", other)` — a shallow copy of the left
statement whose kwargs gain the *other statement object* under `"_eq_"`.
Since kwargs values range over `Value`, the copy is represented by its
pre-insertion contents (`selfCopy`), the key, and the stored statement. -/
inductive EqResult where
  | asBool (b : Bool)
  | asStmt (selfCopy : Stmt) (key : String) (other : Stmt)

/-- `Statement.__eq__`: same dynamic class, `==`-equal args and kwargs. -/
def Statement.eqBase (a b : Stmt) : Bool :=
  if Stmt.sameClass a b then
    pyEqList a.args b.args && Dict.pyEq a.kwargs b.kwargs
  else
    false

/-- `Comparable.__eq__`: a boolean comparison against another `Comparable`
(via `Statement.__eq__`), and `_set_comparison("_eq_", other)` against
anything else. -/
def Comparable.eqStmt (a b : Stmt) : EqResult :=
  if b.comparable then EqResult.asBool (Statement.eqBase a b)
  else EqResult.asStmt a "_eq_" b

/-- `__eq__` between two statement instances as resolved through the MRO of
the class `from_func` generated: `Historical.__eq__` first when historical
(same class: structural equality and `period` equality; otherwise defer to
the next base), `Comparable.__eq__` when comparable, else
`Statement.__eq__`. The session binding is not consulted anywhere. -/
def Stmt.eq (a b : Stmt) : EqResult :=
  if a.historical then
    if Stmt.sameClass a b then
      EqResult.asBool (Statement.eqBase a b && decide (a.period = b.period))
    else if a.comparable then
      Comparable.eqStmt a b
    else
      EqResult.asBool (Statement.eqBase a b)
  else if a.comparable then
    Comparable.eqStmt a b
  else
    EqResult.asBool (Statement.eqBase a b)

deriving instance DecidableEq for Stmt

deriving instance DecidableEq for EqResult

/-!
## Mutation model for `copy` / `set_params`

Python dicts are mutable objects: `Statement.set_params` updates `self.kwargs`
in place, and `Statement.copy` exists precisely so that this mutation does not
reach the shared template. To state that, dicts live in an explicit heap of
dict cells addressed by index, and a statement object holds the address of its
kwargs dict. `args` is a Python tuple — immutable, rebound wholesale by
`set_params` — so it stays a plain value on the object. -/
abbrev Heap : Type := List Dict

/-- A statement object with identity-aware kwargs: same attributes as `Stmt`
but `kwargsRef` is the heap address of the kwargs dict. -/
structure StmtObj where
  className : String
  historical : Bool
  comparable : Bool
  useGlobals : Bool
  args : List Value
  kwargsRef : Nat
  period : Option TimePeriod
deriving DecidableEq

/-- The contents of an object's kwargs dict. -/
def StmtObj.kwargsIn (h : Heap) (s : StmtObj) : Dict :=
  h.getD s.kwargsRef []

/-- `Statement.copy`: `copy(self)` makes a new object whose attributes alias
the original's, then `new.kwargs = copy(new.kwargs)` rebinds the new object's
kwargs to a fresh dict (a fresh heap cell) with the same contents, and
`new.args = copy(new.args)` copies the immutable args tuple (identity
irrelevant). The original object is untouched. -/
def StmtObj.copyStmt (h : Heap) (s : StmtObj) : Heap × StmtObj :=
  (h ++ [StmtObj.kwargsIn h s], { s with kwargsRef := h.length })

/-- `Statement.set_params`: `self.args = (*self.args, *args)` rebinds the args
attribute of this object, and `self.kwargs.update(kwargs)` mutates the dict at
this object's kwargs address in place. -/
def StmtObj.setParams (h : Heap) (s : StmtObj) (args : List Value) (kwargs : Dict) :
    Heap × StmtObj :=
  (h.set s.kwargsRef (Dict.update (StmtObj.kwargsIn h s) kwargs),
   { s with args := s.args ++ args })

/-!
## Session construction: timeout parsing (spec-modelled)

The rocketry `Session` / `Config` classes are not part of the snapshot; only
their test `src/rocketry/test/session/test_construct.py` is. The timeout
option is therefore modelled from the spec. Durations are exact rationals in
seconds (`timedelta` arithmetic on these inputs is exact for the comparison
the test makes). -/

/-- Split a character list on a separator, keeping empty pieces (the helper
the spec-modelled duration parser tokenises with; `acc` holds the current
piece reversed). -/
def splitOnChar (sep : Char) : List Char → List Char → List (List Char)
  | [], acc => [acc.reverse]
  | c :: rest, acc =>
    if c = sep then acc.reverse :: splitOnChar sep rest []
    else splitOnChar sep rest (c :: acc)

/-- Modelled from the spec: a decimal digit sequence as a natural number; part
of the human duration string parsing the (absent) `Config` class performs. -/
def parseDigits (cs : List Char) : Option Nat :=
  if cs.isEmpty then none
  else if cs.all Char.isDigit then
    some (cs.foldl (fun acc c => acc * 10 + (c.toNat - 48)) 0)
  else none

/-- Modelled from the spec: a decimal literal such as `0.1` as an exact
rational. -/
def parseDecimal (cs : List Char) : Option ℚ :=
  match splitOnChar '.' cs [] with
  | [w] => (parseDigits w).map fun n => (n : ℚ)
  | [w, f] =>
    match parseDigits w, parseDigits f with
    | some n, some m => some ((n : ℚ) + (m : ℚ) / ((10 : ℚ) ^ f.length))
    | _, _ => none
  | _ => none

/-- Modelled from the spec: the seconds per named time unit a human duration
string may use. -/
def secondsPerUnit (unit : List Char) : Option ℚ :=
  if unit = "second".toList ∨ unit = "seconds".toList then some 1
  else if unit = "minute".toList ∨ unit = "minutes".toList then some 60
  else if unit = "hour".toList ∨ unit = "hours".toList then some 3600
  else none

/-- Modelled from the spec: a human duration string such as `"0.1 seconds"`
as seconds. -/
def parseDurationString (s : String) : Option ℚ :=
  match splitOnChar ' ' s.toList [] with
  | [num, unit] =>
    match parseDecimal num, secondsPerUnit unit with
    | some q, some mult => some (q * mult)
    | _, _ => none
  | _ => none

/-- The forms the `timeout` config option accepts: a number of seconds, a
human string, or a `datetime.timedelta` (as exact seconds). -/
inductive TimeoutArg where
  | num (seconds : ℚ)
  | str (text : String)
  | dur (seconds : ℚ)

/-- Modelled from the spec: the `config.timeout` value (seconds) the (absent)
`Session`/`Config` constructor produces from the `timeout` option; with the
option absent the default is 30 minutes. -/
def parseTimeout : Option TimeoutArg → Option ℚ
  | none => some (30 * 60)
  | some (TimeoutArg.num q) => some q
  | some (TimeoutArg.str s) => parseDurationString s
  | some (TimeoutArg.dur q) => some q

/-!
## Concrete fixtures

Closed instances used by the counterexample and witness theorems. -/

/-- A time environment whose periods roll back to the ten time units ending at
the query instant. -/
def demoTimeEnv : TimeEnv := TimeEnv.mk fun _ t => TimeInterval.mk (t - 10) t

/-- A session without `debug` and with global parameters. -/
def demoSession : Session :=
  Session.mk [("mode", Value.vStr "test"), ("y", Value.vInt 2)] (Config.mk false)

/-- A session with `debug` set. -/
def debugSession : Session := Session.mk [] (Config.mk true)

/-- A plain statement instance (no mixins, no globals). -/
def plainStmt : Stmt :=
  Stmt.mk "file_ready" false false false [Value.vStr "data.csv"] [] none

/-- A comparable statement instance with one attached comparison, as
`from_func(quantitative=True)` followed by `>= 3` produces. -/
def countStmt : Stmt :=
  Stmt.mk "task_started" false true false [Value.vStr "mytask"]
    [("_ge_", Value.vInt 3)] none

/-- A historical + comparable statement with a period and `use_globals`. -/
def histStmt : Stmt :=
  Stmt.mk "task_succeeded" true true true [Value.vStr "mytask"] []
    (some (TimePeriod.mk "daily"))

/-- A non-historical statement with `use_globals` and local kwargs that
collide with a session parameter. -/
def globalStmt : Stmt :=
  Stmt.mk "param_check" false false true []
    [("mode", Value.vStr "local"), ("x", Value.vInt 1)] none

/-- An observe function that raises `ImportError`. -/
def importErrorObserve : ObserveFn := fun _ _ => Except.error PyExc.importError

/-- An observe function that raises `KeyboardInterrupt`. -/
def keyboardObserve : ObserveFn := fun _ _ => Except.error PyExc.keyboardInterrupt

/-- An observe function that raises a generic exception. -/
def boomObserve : ObserveFn := fun _ _ => Except.error (PyExc.otherError "boom")

/-- An observe function that reports the `mode` keyword argument it was
handed (a truthy marker when absent). -/
def modeObserve : ObserveFn := fun _ kw =>
  Except.ok ((Dict.lookup kw "mode").getD (Value.vBool false))

/-! ## Dictionary lemmas -/

theorem Dict.lookup_append (d1 d2 : Dict) (k : String) :
    Dict.lookup (d1 ++ d2) k =
      match Dict.lookup d1 k with
      | some v => some v
      | none => Dict.lookup d2 k := by
  induction d1 with
  | nil => simp [Dict.lookup]
  | cons p rest ih =>
    obtain ⟨k0, v0⟩ := p
    by_cases h : k0 = k <;> simp [Dict.lookup, h, ih]

theorem Dict.lookup_cons (k0 : String) (v0 : Value) (rest : Dict) (k : String) :
    Dict.lookup ((k0, v0) :: rest) k = if k0 = k then some v0 else Dict.lookup rest k := rfl

theorem Dict.lookup_eq_none_iff (d : Dict) (k : String) :
    Dict.lookup d k = none ↔ k ∉ d.map Prod.fst := by
  induction d with
  | nil => simp [Dict.lookup]
  | cons p rest ih =>
    obtain ⟨k0, v0⟩ := p
    rw [Dict.lookup_cons, List.map_cons, List.mem_cons]
    by_cases h : k0 = k
    · subst h
      simp
    · have hs : ¬ k = k0 := fun heq => h heq.symm
      simp [h, hs, ih]

theorem Dict.lookup_set (d : Dict) (k : String) (v : Value) (k2 : String) :
    Dict.lookup (Dict.set d k v) k2 = if k2 = k then some v else Dict.lookup d k2 := by
  induction d with
  | nil =>
    by_cases h : k2 = k
    · subst h
      simp [Dict.set, Dict.lookup]
    · have hs : ¬ k = k2 := fun heq => h heq.symm
      simp [Dict.set, Dict.lookup, h, hs]
  | cons p rest ih =>
    obtain ⟨k0, v0⟩ := p
    by_cases h1 : k0 = k
    · subst h1
      rw [Dict.set, if_pos rfl, Dict.lookup_cons, Dict.lookup_cons]
      by_cases h2 : k2 = k0
      · subst h2
        simp
      · have h2s : ¬ k0 = k2 := fun heq => h2 heq.symm
        rw [if_neg h2s, if_neg h2, if_neg h2s]
    · rw [Dict.set, if_neg h1, Dict.lookup_cons, Dict.lookup_cons, ih]
      by_cases h2 : k0 = k2
      · have h3 : ¬ k2 = k := fun heq => h1 (h2.trans heq)
        simp [h2, h3]
      · simp [h2]

theorem Dict.update_cons (d : Dict) (p : String × Value) (rest : Dict) :
    Dict.update d (p :: rest) = Dict.update (Dict.set d p.1 p.2) rest := rfl

theorem Dict.lookup_update_of_absent (d kw : Dict) (k : String)
    (h : Dict.lookup kw k = none) :
    Dict.lookup (Dict.update d kw) k = Dict.lookup d k := by
  induction kw generalizing d with
  | nil => rfl
  | cons p rest ih =>
    obtain ⟨k0, v0⟩ := p
    have hk0 : ¬ k0 = k := by
      intro heq
      simp [Dict.lookup, heq] at h
    have hrest : Dict.lookup rest k = none := by
      simpa [Dict.lookup, hk0] using h
    have hk0s : ¬ k = k0 := fun heq => hk0 heq.symm
    rw [Dict.update_cons, ih _ hrest, Dict.lookup_set, if_neg hk0s]

theorem Dict.lookup_update_of_present (d kw : Dict) (k : String) (v : Value)
    (hnodup : Dict.nodupKeys kw) (h : Dict.lookup kw k = some v) :
    Dict.lookup (Dict.update d kw) k = some v := by
  induction kw generalizing d with
  | nil => simp [Dict.lookup] at h
  | cons p rest ih =>
    obtain ⟨k0, v0⟩ := p
    rw [Dict.nodupKeys, List.map_cons, List.nodup_cons] at hnodup
    by_cases hk : k0 = k
    · subst hk
      have hv : v0 = v := by simpa [Dict.lookup] using h
      subst hv
      have hnone : Dict.lookup rest k0 = none := by
        rw [Dict.lookup_eq_none_iff]
        exact hnodup.1
      rw [Dict.update_cons, Dict.lookup_update_of_absent _ _ _ hnone, Dict.lookup_set]
      simp
    · have hrest : Dict.lookup rest k = some v := by
        simpa [Dict.lookup, hk] using h
      rw [Dict.update_cons]
      exact ih _ hnodup.2 hrest

/-! ## Lemmas about the `Comparable` comparison scan -/

theorem attachedComps_isEmpty_iff (kw : Dict) :
    (attachedComps kw).isEmpty = true ↔ ∀ c ∈ compKeys, Dict.lookup kw c = none := by
  rw [attachedComps, List.isEmpty_iff, List.filterMap_eq_nil_iff]
  constructor
  · intro h c hc
    have := h c hc
    simpa using this
  · intro h c hc
    simp [h c hc]

theorem attachedComps_all_iff (kw : Dict) (f : String × Value → Bool) :
    ((attachedComps kw).all f = true) ↔
      ∀ c ∈ compKeys, ∀ v, Dict.lookup kw c = some v → f (magicName c, v) = true := by
  rw [attachedComps, List.all_eq_true]
  constructor
  · intro h c hc v hv
    exact h (magicName c, v) (List.mem_filterMap.mpr ⟨c, hc, by simp [hv]⟩)
  · intro h p hp
    obtain ⟨c, hc, hcv⟩ := List.mem_filterMap.mp hp
    rcases h2 : Dict.lookup kw c with _ | v
    · rw [h2] at hcv
      simp at hcv
    · rw [h2] at hcv
      obtain rfl : (magicName c, v) = p := by simpa using hcv
      exact h c hc v h2

theorem Comparable.toBool_not_bool (kw : Dict) (res : Value)
    (hb : ∀ b, res ≠ Value.vBool b) :
    Comparable.toBool kw res =
      (let scalar := comparableScalar res
       let comps := attachedComps kw
       if comps.isEmpty then
         match scalar with
         | Value.vInt n => Except.ok (decide (0 < n))
         | _ => Except.error (PyExc.otherError "TypeError: not supported between instances")
       else Except.ok (comps.all fun p => pyCompMagic p.1 scalar p.2)) := by
  cases res <;> first | (exact absurd rfl (hb _)) | rfl

/-! ## Claim theorems -/

/-- **C5.** For every Historical statement with a non-absent period, each
evaluation computes `period.rollback(now)` from the evaluation instant before
calling `observe`, and passes the interval's left endpoint as kwarg `_start_`
and its right endpoint as kwarg `_end_` to `observe` (`evalStatement` hands
exactly `Stmt.getKwargs` to `observe`). -/
theorem c5_historical_window (tenv : TimeEnv) (now : Int) (sess : Session)
    (s : Stmt) (p : TimePeriod) (hh : s.historical = true) (hp : s.period = some p) :
    Dict.lookup (Stmt.getKwargs tenv now sess s) "_start_"
      = some (Value.vTime (tenv.rollback p now).left) ∧
    Dict.lookup (Stmt.getKwargs tenv now sess s) "_end_"
      = some (Value.vTime (tenv.rollback p now).right) := by
  unfold Stmt.getKwargs
  rw [hh, hp]
  constructor
  · rw [if_pos rfl, Dict.lookup_set, if_neg (by decide), Dict.lookup_set, if_pos rfl]
  · rw [if_pos rfl, Dict.lookup_set, if_pos rfl]

/-- Witness for `c5_historical_window` at a concrete historical statement. -/
theorem c5_historical_window_witness :
    Dict.lookup (Stmt.getKwargs demoTimeEnv 100 demoSession histStmt) "_start_"
      = some (Value.vTime (demoTimeEnv.rollback (TimePeriod.mk "daily") 100).left) ∧
    Dict.lookup (Stmt.getKwargs demoTimeEnv 100 demoSession histStmt) "_end_"
      = some (Value.vTime (demoTimeEnv.rollback (TimePeriod.mk "daily") 100).right) :=
  c5_historical_window demoTimeEnv 100 demoSession histStmt (TimePeriod.mk "daily") rfl rfl

/-- **C6.** `KeyboardInterrupt` and `ImportError` raised by `observe` are
re-raised out of `bool(s)` regardless of `config.debug`, with no
log-and-return-false handling. -/
theorem c6_always_reraised (observe : ObserveFn) (tenv : TimeEnv) (now : Int)
    (sess : Session) (s : Stmt) (e : PyExc)
    (he : e = PyExc.keyboardInterrupt ∨ e = PyExc.importError)
    (hraise : observe s.args (Stmt.getKwargs tenv now sess s) = Except.error e) :
    evalStatement observe tenv now sess s = (Except.error e, []) := by
  unfold evalStatement
  rw [hraise]
  rcases he with rfl | rfl <;> rfl

/-- Witness for `c6_always_reraised` with a `KeyboardInterrupt`-raising
observe on a debug-less session. -/
theorem c6_always_reraised_witness :
    evalStatement keyboardObserve demoTimeEnv 0 demoSession plainStmt
      = (Except.error PyExc.keyboardInterrupt, []) :=
  c6_always_reraised keyboardObserve demoTimeEnv 0 demoSession plainStmt
    PyExc.keyboardInterrupt (Or.inl rfl) rfl

/-- **C7.** With `use_globals=false`, `bool(s)` does not depend on
`session.parameters`: the whole evaluation (result and log records) agrees
between two sessions that differ only in their parameters. -/
theorem c7_no_globals_independence (observe : ObserveFn) (tenv : TimeEnv)
    (now : Int) (s : Stmt) (params1 params2 : Dict) (cfg : Config)
    (hg : s.useGlobals = false) :
    evalStatement observe tenv now (Session.mk params1 cfg) s
      = evalStatement observe tenv now (Session.mk params2 cfg) s := by
  unfold evalStatement Stmt.getKwargs Stmt.baseKwargs
  rw [hg]
  simp

/-- Witness for `c7_no_globals_independence`: an observe function that reads
the `mode` kwarg, evaluated under two different parameter sets. -/
theorem c7_no_globals_independence_witness :
    evalStatement modeObserve demoTimeEnv 0
        (Session.mk [("mode", Value.vBool true)] (Config.mk false)) plainStmt
      = evalStatement modeObserve demoTimeEnv 0
        (Session.mk [("mode", Value.vBool false)] (Config.mk false)) plainStmt :=
  c7_no_globals_independence modeObserve demoTimeEnv 0 plainStmt
    [("mode", Value.vBool true)] [("mode", Value.vBool false)] (Config.mk false) rfl

/-- **C10.** For a Comparable statement whose observation is a plain boolean,
`_to_bool` returns that boolean directly; any attached relational-operator
kwargs are ignored (the theorem holds for every kwargs dict of the
statement). -/
theorem c10_bool_observation_direct (s : Stmt) (b : Bool)
    (hc : s.comparable = true) :
    Stmt.toBool s (Value.vBool b) = Except.ok b := by
  unfold Stmt.toBool
  rw [hc]
  rfl

/-- Witness for `c10_bool_observation_direct`: a comparable statement with an
attached `_ge_` comparison still passes a boolean observation through. -/
theorem c10_bool_observation_direct_witness :
    Stmt.toBool countStmt (Value.vBool true) = Except.ok true :=
  c10_bool_observation_direct countStmt true rfl

/-- **C1 counterexample.** The claim quantifies over every exception raised by
`observe`, but an `ImportError` escapes `bool(s)` even with `config.debug`
unset (the `except (KeyboardInterrupt, ImportError)` clause re-raises before
the log-and-return-false handler): on this debug-less session `bool(s)` does
not evaluate to false and nothing is logged. -/
theorem c1_counterexample :
    demoSession.config.debug = false ∧
    evalStatement importErrorObserve demoTimeEnv 0 demoSession plainStmt
      = (Except.error PyExc.importError, []) ∧
    (evalStatement importErrorObserve demoTimeEnv 0 demoSession plainStmt).1
      ≠ Except.ok false := by
  refine ⟨rfl, rfl, fun h => ?_⟩
  rw [show (evalStatement importErrorObserve demoTimeEnv 0 demoSession plainStmt).1
      = Except.error PyExc.importError from rfl] at h
  exact Except.noConfusion h

/-- **C1 (amended).** If `observe` raises an exception other than
`KeyboardInterrupt` and `ImportError` during `bool(s)`, then `bool(s)`
evaluates to false and the exception is logged at error level — unless
`config.debug` is set, in which case the (still logged) exception propagates
to the caller. -/
theorem c1_observe_exception_policy (observe : ObserveFn) (tenv : TimeEnv)
    (now : Int) (sess : Session) (s : Stmt) (msg : String)
    (hraise : observe s.args (Stmt.getKwargs tenv now sess s)
      = Except.error (PyExc.otherError msg)) :
    evalStatement observe tenv now sess s =
      ((if sess.config.debug then Except.error (PyExc.otherError msg) else Except.ok false),
       [LogRecord.mk LogLevel.error ("Statement is False due to an Exception: " ++ msg)]) := by
  unfold evalStatement
  rw [hraise]
  cases h : sess.config.debug <;> simp [h]

/-- Witness for `c1_observe_exception_policy`: a generic exception on a
debug-less session yields `False` plus one error-level log record. -/
theorem c1_observe_exception_policy_witness :
    evalStatement boomObserve demoTimeEnv 0 demoSession plainStmt =
      ((if demoSession.config.debug then Except.error (PyExc.otherError "boom")
        else Except.ok false),
       [LogRecord.mk LogLevel.error ("Statement is False due to an Exception: " ++ "boom")]) :=
  c1_observe_exception_policy boomObserve demoTimeEnv 0 demoSession plainStmt "boom" rfl

/-- **C2.** For a Comparable statement whose observation is not a plain
boolean, `_to_bool` reduces the observation to its length when it is countable
(`__len__`) and to the value itself otherwise, then returns the conjunction of
all relational operators (`_eq_`, `_ne_`, `_lt_`, `_gt_`, `_le_`, `_ge_`)
present in `s.kwargs` applied to that scalar; with none present it returns
whether the scalar is greater than 0. -/
theorem c2_comparable_reduction (kw : Dict) (res : Value) (n : Int)
    (hb : ∀ b, res ≠ Value.vBool b)
    (hscalar : comparableScalar res = Value.vInt n) :
    (res.hasLen = true → n = res.lenOf) ∧
    (res.hasLen = false → res = Value.vInt n) ∧
    ∃ b : Bool, Comparable.toBool kw res = Except.ok b ∧
      (b = true ↔
        if ∀ c ∈ compKeys, Dict.lookup kw c = none then 0 < n
        else ∀ c ∈ compKeys, ∀ v, Dict.lookup kw c = some v →
          pyCompMagic (magicName c) (Value.vInt n) v = true) := by
  refine ⟨?_, ?_, ?_⟩
  · intro hl
    rw [comparableScalar, hl] at hscalar
    simpa using hscalar.symm
  · intro hl
    rw [comparableScalar, hl] at hscalar
    simpa using hscalar
  · rw [Comparable.toBool_not_bool kw res hb]
    simp only [hscalar]
    by_cases hempty : (attachedComps kw).isEmpty = true
    · rw [if_pos hempty]
      refine ⟨decide (0 < n), rfl, ?_⟩
      rw [if_pos ((attachedComps_isEmpty_iff kw).mp hempty)]
      simp
    · rw [if_neg hempty]
      refine ⟨(attachedComps kw).all fun p => pyCompMagic p.1 (Value.vInt n) p.2, rfl, ?_⟩
      rw [if_neg (fun hall => hempty ((attachedComps_isEmpty_iff kw).mpr hall))]
      exact attachedComps_all_iff kw fun p => pyCompMagic p.1 (Value.vInt n) p.2

/-- Witness for `c2_comparable_reduction`: a three-element list observation
against an attached `_ge_ 2` comparison. -/
theorem c2_comparable_reduction_witness :
    ((Value.vList [Value.vInt 1, Value.vInt 2, Value.vInt 3]).hasLen = true →
      (3 : Int) = (Value.vList [Value.vInt 1, Value.vInt 2, Value.vInt 3]).lenOf) ∧
    ((Value.vList [Value.vInt 1, Value.vInt 2, Value.vInt 3]).hasLen = false →
      Value.vList [Value.vInt 1, Value.vInt 2, Value.vInt 3] = Value.vInt 3) ∧
    ∃ b : Bool,
      Comparable.toBool [("_ge_", Value.vInt 2)]
        (Value.vList [Value.vInt 1, Value.vInt 2, Value.vInt 3]) = Except.ok b ∧
      (b = true ↔
        if ∀ c ∈ compKeys, Dict.lookup [("_ge_", Value.vInt 2)] c = none then (0 : Int) < 3
        else ∀ c ∈ compKeys, ∀ v, Dict.lookup [("_ge_", Value.vInt 2)] c = some v →
          pyCompMagic (magicName c) (Value.vInt 3) v = true) :=
  c2_comparable_reduction [("_ge_", Value.vInt 2)]
    (Value.vList [Value.vInt 1, Value.vInt 2, Value.vInt 3]) 3
    (fun _ h => Value.noConfusion h) rfl

/-- **C3 counterexample.** Equality between statements is not always a
boolean: comparing a `Comparable` statement against a non-`Comparable` one
runs `Comparable.__eq__`'s fallback `_set_comparison("_eq_", other)`, which
returns a re-parameterised statement object (a copy of the left operand with
the right operand stored under `"_eq_"`), not `True` or `False` — even though
both operands are condition-tree nodes of different classes with different
args, for which the claim requires the boolean `False`. -/
theorem c3_counterexample :
    Stmt.eq countStmt plainStmt = EqResult.asStmt countStmt "_eq_" plainStmt ∧
    Stmt.eq countStmt plainStmt ≠ EqResult.asBool true ∧
    Stmt.eq countStmt plainStmt ≠ EqResult.asBool false := by
  refine ⟨rfl, fun h => ?_, fun h => ?_⟩ <;>
    rw [show Stmt.eq countStmt plainStmt
        = EqResult.asStmt countStmt "_eq_" plainStmt from rfl] at h <;>
    exact EqResult.noConfusion h

/-- **C3 (amended).** Whenever the left statement is not `Comparable` or the
right one is `Comparable`, `a == b` is a boolean that holds iff the two have
the same class and structurally (`==`-deep) equal args and kwargs — and, for
`Historical` statements, equal periods. The session binding plays no role:
`Stmt.eq` does not consult any session. When the left statement is
`Comparable` and the right one is not, `a == b` is instead a re-parameterised
statement, not a boolean. -/
theorem c3_structural_equality (a b : Stmt)
    (h : a.comparable = false ∨ b.comparable = true) :
    Stmt.eq a b = EqResult.asBool
      (Stmt.sameClass a b && (pyEqList a.args b.args && Dict.pyEq a.kwargs b.kwargs)
        && (!a.historical || decide (a.period = b.period))) := by
  have hsame : ∀ x y : Stmt, Stmt.sameClass x y = true → y.comparable = x.comparable := by
    intro x y hxy
    rw [Stmt.sameClass] at hxy
    simp only [Bool.and_eq_true, decide_eq_true_eq] at hxy
    exact hxy.1.2.symm
  unfold Stmt.eq Comparable.eqStmt Statement.eqBase
  cases hhist : a.historical <;> cases hsc : Stmt.sameClass a b <;>
    cases hcomp : a.comparable <;>
    simp_all

/-- Witness for `c3_structural_equality`: a comparable statement compared with
itself. -/
theorem c3_structural_equality_witness :
    Stmt.eq countStmt countStmt = EqResult.asBool
      (Stmt.sameClass countStmt countStmt
        && (pyEqList countStmt.args countStmt.args
          && Dict.pyEq countStmt.kwargs countStmt.kwargs)
        && (!countStmt.historical || decide (countStmt.period = countStmt.period))) :=
  c3_structural_equality countStmt countStmt (Or.inr rfl)

/-- **C4 counterexample.** For a `Historical` statement with a period and
`use_globals=true`, the kwargs passed to `observe` are not just the merge of
`session.parameters` and the statement's own kwargs: `Historical.get_kwargs`
additionally sets `_start_` and `_end_` on the merged dict, so the claim's
universal statement over every `use_globals=true` statement fails on this
input (`_start_` is absent from the plain merge). -/
theorem c4_counterexample :
    histStmt.useGlobals = true ∧
    Stmt.getKwargs demoTimeEnv 100 demoSession histStmt
      ≠ Dict.merge demoSession.parameters histStmt.kwargs := by
  refine ⟨rfl, fun h => ?_⟩
  have h1 : Dict.lookup (Stmt.getKwargs demoTimeEnv 100 demoSession histStmt) "_start_"
      = some (Value.vTime 90) := rfl
  have h2 : Dict.lookup (Dict.merge demoSession.parameters histStmt.kwargs) "_start_"
      = none := rfl
  rw [h, h2] at h1
  exact Option.noConfusion h1

/-- **C4 (amended).** For every Statement created with `use_globals=true` that
is not a Historical statement with a period, the kwargs passed to `observe`
are `session.parameters` merged with the statement's own kwargs: every
statement-local binding wins over any session parameter under the same key
(collision case), and keys absent from the statement's kwargs resolve to the
session parameters. -/
theorem c4_use_globals_merge (tenv : TimeEnv) (now : Int) (sess : Session)
    (s : Stmt) (hg : s.useGlobals = true)
    (hnp : s.historical = false ∨ s.period = none)
    (hnodup : Dict.nodupKeys s.kwargs) :
    (∀ k v, Dict.lookup s.kwargs k = some v →
      Dict.lookup (Stmt.getKwargs tenv now sess s) k = some v) ∧
    (∀ k, Dict.lookup s.kwargs k = none →
      Dict.lookup (Stmt.getKwargs tenv now sess s) k = Dict.lookup sess.parameters k) := by
  have hbase : Stmt.getKwargs tenv now sess s = Dict.update sess.parameters s.kwargs := by
    unfold Stmt.getKwargs Stmt.baseKwargs
    rcases hnp with h | h
    · rw [h, hg]
      simp [Dict.merge]
    · cases hh : s.historical <;> simp [hh, h, hg, Dict.merge]
  rw [hbase]
  exact ⟨fun k v hv => Dict.lookup_update_of_present sess.parameters s.kwargs k v hnodup hv,
    fun k hk => Dict.lookup_update_of_absent sess.parameters s.kwargs k hk⟩

/-- Witness for `c4_use_globals_merge`: a colliding `mode` key resolves to the
statement-local value, and the non-colliding session parameter `y` shows
through. -/
theorem c4_use_globals_merge_witness :
    Dict.lookup (Stmt.getKwargs demoTimeEnv 0 demoSession globalStmt) "mode"
      = some (Value.vStr "local") ∧
    Dict.lookup (Stmt.getKwargs demoTimeEnv 0 demoSession globalStmt) "y"
      = some (Value.vInt 2) := by
  have h := c4_use_globals_merge demoTimeEnv 0 demoSession globalStmt rfl (Or.inl rfl)
    (by simp [Dict.nodupKeys, globalStmt])
  refine ⟨h.1 "mode" (Value.vStr "local") rfl, ?_⟩
  rw [h.2 "y" rfl]
  rfl

/-- **C8.** Calling `set_params` on the shallow copy `s.copy()` (as the binder
does to attach a `task=…` argument) leaves the original statement unchanged:
the dict behind the original's `kwargs` attribute still holds its old
contents (its `args` tuple is immutable and never touched through the copy),
while the copy's kwargs contain the added bindings (and its args tuple the
appended positional arguments). -/
theorem c8_copy_set_params_frame (h : Heap) (s : StmtObj) (addArgs : List Value)
    (addKw : Dict) (href : s.kwargsRef < h.length) (hnodup : Dict.nodupKeys addKw) :
    StmtObj.kwargsIn
        (StmtObj.setParams (StmtObj.copyStmt h s).1 (StmtObj.copyStmt h s).2 addArgs addKw).1 s
      = StmtObj.kwargsIn h s ∧
    (StmtObj.setParams (StmtObj.copyStmt h s).1 (StmtObj.copyStmt h s).2 addArgs addKw).2.args
      = s.args ++ addArgs ∧
    ∀ k v, Dict.lookup addKw k = some v →
      Dict.lookup
        (StmtObj.kwargsIn
          (StmtObj.setParams (StmtObj.copyStmt h s).1 (StmtObj.copyStmt h s).2 addArgs addKw).1
          (StmtObj.setParams (StmtObj.copyStmt h s).1 (StmtObj.copyStmt h s).2 addArgs addKw).2) k
      = some v := by
  have hne : h.length ≠ s.kwargsRef := fun heq => absurd heq.symm (Nat.ne_of_lt href)
  refine ⟨?_, rfl, ?_⟩
  · simp only [StmtObj.copyStmt, StmtObj.setParams, StmtObj.kwargsIn,
      List.getD_eq_getElem?_getD]
    rw [List.getElem?_set_ne hne, List.getElem?_append, if_pos href]
  · intro k v hv
    simp only [StmtObj.copyStmt, StmtObj.setParams, StmtObj.kwargsIn,
      List.getD_eq_getElem?_getD]
    rw [List.getElem?_set_self (by simp), Option.getD_some,
      List.getElem?_append_right (Nat.le_refl _)]
    simp only [Nat.sub_self, List.getElem?_cons_zero, Option.getD_some]
    exact Dict.lookup_update_of_present _ _ _ _ hnodup hv

/-- Witness for `c8_copy_set_params_frame`: a one-cell heap, the binder's
`task=…` binding added on the copy. -/
theorem c8_copy_set_params_frame_witness :
    StmtObj.kwargsIn
        (StmtObj.setParams
          (StmtObj.copyStmt [[("x", Value.vInt 1)]] (StmtObj.mk "run_count" false true false [] 0 none)).1
          (StmtObj.copyStmt [[("x", Value.vInt 1)]] (StmtObj.mk "run_count" false true false [] 0 none)).2
          [] [("task", Value.vStr "mytask")]).1
        (StmtObj.mk "run_count" false true false [] 0 none)
      = StmtObj.kwargsIn [[("x", Value.vInt 1)]] (StmtObj.mk "run_count" false true false [] 0 none) ∧
    (StmtObj.setParams
        (StmtObj.copyStmt [[("x", Value.vInt 1)]] (StmtObj.mk "run_count" false true false [] 0 none)).1
        (StmtObj.copyStmt [[("x", Value.vInt 1)]] (StmtObj.mk "run_count" false true false [] 0 none)).2
        [] [("task", Value.vStr "mytask")]).2.args
      = [] ++ ([] : List Value) ∧
    ∀ k v, Dict.lookup [("task", Value.vStr "mytask")] k = some v →
      Dict.lookup
        (StmtObj.kwargsIn
          (StmtObj.setParams
            (StmtObj.copyStmt [[("x", Value.vInt 1)]] (StmtObj.mk "run_count" false true false [] 0 none)).1
            (StmtObj.copyStmt [[("x", Value.vInt 1)]] (StmtObj.mk "run_count" false true false [] 0 none)).2
            [] [("task", Value.vStr "mytask")]).1
          (StmtObj.setParams
            (StmtObj.copyStmt [[("x", Value.vInt 1)]] (StmtObj.mk "run_count" false true false [] 0 none)).1
            (StmtObj.copyStmt [[("x", Value.vInt 1)]] (StmtObj.mk "run_count" false true false [] 0 none)).2
            [] [("task", Value.vStr "mytask")]).2) k
      = some v :=
  c8_copy_set_params_frame [[("x", Value.vInt 1)]]
    (StmtObj.mk "run_count" false true false [] 0 none) [] [("task", Value.vStr "mytask")]
    (by simp) (by simp [Dict.nodupKeys])

/-- **C9.** (Spec-modelled: the `Session`/`Config` constructor is absent from
the snapshot.) Constructing a session with `timeout` given as the number
`0.1`, as the human string `"0.1 seconds"`, or as a duration of 0.1 seconds
produces the same `config.timeout` of 0.1 seconds; with no timeout given the
default is 30 minutes. -/
theorem c9_timeout_parse :
    parseTimeout (some (TimeoutArg.num (1 / 10))) = some (1 / 10) ∧
    parseTimeout (some (TimeoutArg.str "0.1 seconds")) = some (1 / 10) ∧
    parseTimeout (some (TimeoutArg.dur (1 / 10))) = some (1 / 10) ∧
    parseTimeout none = some (30 * 60) := by
  refine ⟨rfl, ?_, rfl, rfl⟩
  show parseDurationString "0.1 seconds" = some (1 / 10)
  rw [show parseDurationString "0.1 seconds"
      = some ((((0 : Nat) : ℚ) + ((1 : Nat) : ℚ) / ((10 : ℚ) ^ (1 : Nat))) * 1) from rfl]
  norm_num
